import Mathlib

/-!
Shallow embedding of `src/RestAdapter/rest_adapter.py` (class `RestAdapter`).

Modelling conventions:
* Python `dict` arguments (`ep_params`, `data`) are association lists in
  insertion order; an omitted (`None`) dict is `none`.
* The external HTTP transport (`self.session.send(prepared_request)`) is an
  input of `_do`: `Except String Response`, `.error e` standing for a raised
  `requests.exceptions.RequestException` whose `str()` is `e`.
* A logger call `self._logger.debug/error/log` is an emitted event; numeric
  severities follow the `logging` module (debug = 10, error = 40).  Level
  filtering done by the externally configured sink is outside this model
  (the spec treats the logger sink as an external collaborator).
* Python exceptions escaping `_do` are `Except.error` values of `PyError`:
  the re-raised `RequestException`, or the `KeyError`/`ValueError` that
  `str.format` raises when the format template is malformed.  The error
  message texts are model labels, not byte-for-byte CPython messages.
* `str.upper` is modelled per character (`Char.toUpper`), exact for the
  ASCII labels the program compares against.
* `str.format` is modelled by `pyFormatGo`, exact for templates whose
  brace-delimited fields are plain keyword names (the only forms that can
  arise here are plain names and stray braces; conversion/format-spec
  syntax such as `\x7bx!r\x7d` is treated as an error).
* `repr` of a string (used when a Python list of strings is interpolated
  into an f-string) is modelled by `pyReprStr`: quote-character selection
  and escaping of backslash, quote, newline, carriage return and tab; the
  `\xNN` escaping that `repr` applies to other non-printable characters is
  not modelled (no claim depends on it).
-/

/-- The character `{` (written via `Char.ofNat` to keep braces out of code). -/
def lbrace : Char := Char.ofNat 123

/-- The character `}`. -/
def rbrace : Char := Char.ofNat 125

/-- The character `'`. -/
def squote : Char := Char.ofNat 39

/-- The character `"`. -/
def dquote : Char := Char.ofNat 34

/-- The character `\`. -/
def bslash : Char := Char.ofNat 92

/-- Python `str.upper`, per character (exact on ASCII). -/
def pyUpper (s : String) : String := String.mk (s.data.map Char.toUpper)

/-- Python `str(b)` for a `bool`. -/
def pyBool (b : Bool) : String := if b then "True" else "False"

/-- An HTTP response as `_do` observes it: `requests.Response.status_code`
and `.reason`, plus opaque header/body payload which `_do` never touches
(carried to state that the response is returned unchanged). -/
structure Response where
  status_code : Nat
  reason : String
  headers : List (String × String)
  body : String
deriving Repr, DecidableEq

/-- A Python exception escaping `_do`. -/
inductive PyError where
  | requestException (text : String)
  | formatError (text : String)
deriving Repr, DecidableEq

/-- Observable actions of one `_do` call, in order: logger calls and the
invocation of the external transport. -/
inductive Event where
  | log (level : Nat) (msg : String)
  | send (method : String) (url : String)
      (params : Option (List (String × String)))
      (body : Option (List (String × String)))
deriving Repr, DecidableEq

/-- The fields `__init__` stores on `self`.  `session` and `logger` are
opaque references to the external `requests.Session` and `logging.Logger`
collaborators. -/
structure RestAdapter where
  url : String
  session : Nat
  api_key : String
  ssl_verify : Bool
  logger : Nat
deriving Repr, DecidableEq

/-- One escaped character of Python `repr` of a string quoted by `q`. -/
def pyEscapeChar (q c : Char) : List Char :=
  if c = bslash then [bslash, bslash]
  else if c = q then [bslash, q]
  else if c = Char.ofNat 10 then [bslash, Char.ofNat 110]
  else if c = Char.ofNat 13 then [bslash, Char.ofNat 114]
  else if c = Char.ofNat 9 then [bslash, Char.ofNat 116]
  else [c]

/-- Python `repr` of a string: single quotes, or double quotes when the
string contains a single quote and no double quote. -/
def pyReprStr (s : String) : String :=
  let q := if s.contains squote && !(s.contains dquote) then dquote else squote
  String.mk (q :: (s.data.flatMap (pyEscapeChar q) ++ [q]))

/-- Python `str` of a list of strings (as an f-string interpolates it):
`[` + comma-separated `repr`s + `]`. -/
def pyStrList (xs : List String) : String :=
  "[" ++ String.intercalate ", " (xs.map pyReprStr) ++ "]"

/-- Line 109: `[f"(key): (value)" for key, value in ep_params.items()] if
ep_params else []` — a `None` or empty dict is falsy, so both render as the
empty list. -/
def renderLogParams (ep_params : Option (List (String × String))) : List String :=
  match ep_params with
  | none => []
  | some [] => []
  | some ps => ps.map fun kv => kv.1 ++ ": " ++ kv.2

/-- Line 110: `log_line_pre = f"method=.., url=.., params=.."`. -/
def logLinePre (http_method full_url : String)
    (ep_params : Option (List (String × String))) : String :=
  "method=" ++ http_method ++ ", url=" ++ full_url ++ ", params="
    ++ pyStrList (renderLogParams ep_params)

/-- The literal second component of line 112. -/
def postTemplate : String :=
  "success=\x7bsuccess\x7d, status_code=\x7bstatus_code\x7d, message=\x7bmessage\x7d"

/-- Line 124: `is_success = 299 >= response.status_code >= 200`. -/
def is_success (status_code : Nat) : Bool :=
  299 ≥ status_code && status_code ≥ 200

/-- The keyword arguments of line 125's `log_line_post.format(...)`. -/
def doFields (success : Bool) (status_code : Nat) (message : String) :
    List (String × String) :=
  [("success", pyBool success), ("status_code", toString status_code),
   ("message", message)]

/-- Python `str.format` scanner.  `none` mode copies characters, doubling
`\x7b\x7b`/`\x7d\x7d` and erroring on a stray brace; `some acc` mode is inside a
replacement field accumulating its name, closed by `\x7d` and substituted
from `fields` (an unknown name is a `KeyError`).  Structural recursion on
the character list, so it evaluates by `decide`. -/
def pyFormatGo (fields : List (String × String)) :
    Option (List Char) → List Char → Except String (List Char)
  | none, [] => .ok []
  | some _, [] => .error "ValueError: expected closing brace before end of string"
  | some acc, c :: cs =>
    if c = rbrace then
      match List.lookup (String.mk acc) fields with
      | none => .error ("KeyError: " ++ String.mk acc)
      | some v =>
        match pyFormatGo fields none cs with
        | .error e => .error e
        | .ok r => .ok (v.data ++ r)
    else pyFormatGo fields (some (acc ++ [c])) cs
  | none, c :: cs =>
    if c = lbrace then
      match cs with
      | [] => .error "ValueError: single left brace in format string"
      | c2 :: cs2 =>
        if c2 = lbrace then
          match pyFormatGo fields none cs2 with
          | .error e => .error e
          | .ok r => .ok (lbrace :: r)
        else pyFormatGo fields (some []) (c2 :: cs2)
    else if c = rbrace then
      match cs with
      | [] => .error "ValueError: single right brace in format string"
      | c2 :: cs2 =>
        if c2 = rbrace then
          match pyFormatGo fields none cs2 with
          | .error e => .error e
          | .ok r => .ok (rbrace :: r)
        else .error "ValueError: single right brace in format string"
    else
      match pyFormatGo fields none cs with
      | .error e => .error e
      | .ok r => .ok (c :: r)

/-- Python `template.format(**fields)`. -/
def pyFormat (fields : List (String × String)) (template : String) :
    Except String String :=
  match pyFormatGo fields none template.data with
  | .error e => .error e
  | .ok r => .ok (String.mk r)

deriving instance DecidableEq for Except

/-- What one `_do` call produces: the value returned or exception raised,
the ordered trace of logger/transport events, and the adapter state after
the call (the method assigns no field of `self`, so the final state is the
input state; carried explicitly so that this is a theorem, not a
convention). -/
structure DoResult where
  result : Except PyError Response
  trace : List Event
  state : RestAdapter
deriving Repr, DecidableEq

/-- Lines 99-132: `_do`.  The `join` of line 112 of a pair of strings is
plain concatenation with `", "`. -/
def RestAdapter._do (self : RestAdapter) (http_method endpoint : String)
    (ep_params : Option (List (String × String)))
    (data : Option (List (String × String)))
    (transport : Except String Response) : DoResult :=
  let full_url := self.url ++ endpoint
  let log_line_pre := logLinePre http_method full_url ep_params
  let log_line_post := log_line_pre ++ ", " ++ postTemplate
  match transport with
  | .error e =>
    { result := .error (.requestException e)
      trace := [.log 10 log_line_pre, .send http_method full_url ep_params data,
                .log 40 e]
      state := self }
  | .ok response =>
    match pyFormat (doFields (is_success response.status_code)
        response.status_code response.reason) log_line_post with
    | .error e =>
      { result := .error (.formatError e)
        trace := [.log 10 log_line_pre,
                  .send http_method full_url ep_params data]
        state := self }
    | .ok log_line =>
      if is_success response.status_code then
        { result := .ok response
          trace := [.log 10 log_line_pre,
                    .send http_method full_url ep_params data,
                    .log 10 log_line]
          state := self }
      else
        { result := .ok response
          trace := [.log 10 log_line_pre,
                    .send http_method full_url ep_params data,
                    .log 40 log_line]
          state := self }

/-- Lines 72-86: the `log` method.  `match level.upper():` with arms
`"FATAL" | "critical"` (50), `"ERROR"` (40), `"WARNING"` (30), `"INFO"`
(20), `"DEBUG"` (10) and a wildcard arm logging at level 0.  The match is
total, so the method never raises. -/
def RestAdapter.log (_self : RestAdapter) (level : String) (msg : String) :
    Event :=
  match pyUpper level with
  | "FATAL" | "critical" => .log 50 msg
  | "ERROR" => .log 40 msg
  | "WARNING" => .log 30 msg
  | "INFO" => .log 20 msg
  | "DEBUG" => .log 10 msg
  | _ => .log 0 msg

/-- Lines 52-58: the `levels` dict of `_logger_config`. -/
def levels : List (String × Nat) :=
  [("DEBUG", 10), ("INFO", 20), ("WARNING", 30), ("ERROR", 40),
   ("CRITICAL", 50)]

/-- Lines 60-61: `if log_level not in levels.keys(): raise ValueError(...)`.
Only the level validation of `_logger_config` is modelled; the file-system
log-file bootstrap that follows touches external state and no claim depends
on it. -/
def logger_config_check (log_level : String) : Except String Unit :=
  if !((levels.map Prod.fst).contains log_level) then
    .error ("Invalid log level " ++ log_level)
  else .ok ()

/-- Lines 24-41: `__init__`.  Builds the base URL (appending `ver + "/"`
when `ver` is truthy, i.e. non-empty), stores the fields, and calls
`_logger_config(log_level=log_level.upper(), ...)`, which raises
`ValueError` on an invalid level; `.error` is that raised exception. -/
def RestAdapter.init (hostname api_key : String) (ver : String)
    (ssl_verify : Bool) (log_level : String) : Except String RestAdapter :=
  let url := "https://" ++ hostname ++ "/"
  let url := if ver ≠ "" then url ++ ver ++ "/" else url
  match logger_config_check (pyUpper log_level) with
  | .error e => .error e
  | .ok _ =>
    .ok { url := url, session := 0, api_key := api_key,
          ssl_verify := ssl_verify, logger := 0 }

/-- The string contains neither `\x7b` nor `\x7d`.  On such pre-flight text
the `str.format` model is exact (the only braces left in the template are
the three literal replacement fields). -/
def NoBraces (s : String) : Prop :=
  ∀ c ∈ s.data, c ≠ lbrace ∧ c ≠ rbrace

instance (s : String) : Decidable (NoBraces s) :=
  inferInstanceAs (Decidable (∀ c ∈ s.data, c ≠ lbrace ∧ c ≠ rbrace))

/-- Line 136: `get`. -/
def RestAdapter.get (self : RestAdapter) (endpoint : String)
    (ep_params : Option (List (String × String)))
    (transport : Except String Response) : DoResult :=
  self._do "GET" endpoint ep_params none transport

/-- Line 139: `post`. -/
def RestAdapter.post (self : RestAdapter) (endpoint : String)
    (ep_params : Option (List (String × String)))
    (data : Option (List (String × String)))
    (transport : Except String Response) : DoResult :=
  self._do "POST" endpoint ep_params data transport

/-- Line 142: `put`. -/
def RestAdapter.put (self : RestAdapter) (endpoint : String)
    (ep_params : Option (List (String × String)))
    (data : Option (List (String × String)))
    (transport : Except String Response) : DoResult :=
  self._do "PUT" endpoint ep_params data transport

/-- Line 145: `delete`. -/
def RestAdapter.delete (self : RestAdapter) (endpoint : String)
    (ep_params : Option (List (String × String)))
    (transport : Except String Response) : DoResult :=
  self._do "DELETE" endpoint ep_params none transport

/-- A concrete adapter as `__init__("api.example.com", "k")` would build it. -/
def adapterEx : RestAdapter :=
  { url := "https://api.example.com/", session := 0, api_key := "k",
    ssl_verify := true, logger := 0 }

/-- A concrete 200 response. -/
def resp200 : Response :=
  { status_code := 200, reason := "OK", headers := [], body := "" }

/-- A concrete 404 response with nonempty headers and body, to witness that
they pass through `_do` untouched. -/
def resp404 : Response :=
  { status_code := 404, reason := "Not Found", headers := [("Server", "x")],
    body := "gone" }

/-- `pyFormatGo` copies a brace-free prefix verbatim. -/
theorem pyFormatGo_copy (fields : List (String × String)) (pre rest : List Char)
    (h : ∀ c ∈ pre, c ≠ lbrace ∧ c ≠ rbrace) :
    pyFormatGo fields none (pre ++ rest) =
      (pyFormatGo fields none rest).map (fun r => pre ++ r) := by
  induction pre with
  | nil =>
    cases hr : pyFormatGo fields none rest <;> simp [Except.map, hr]
  | cons c cs ih =>
    have hc := h c (by simp)
    have hcs : ∀ x ∈ cs, x ≠ lbrace ∧ x ≠ rbrace := fun x hx => h x (by simp [hx])
    rw [List.cons_append]
    cases h2 : cs ++ rest with
    | nil =>
      have hcs0 : cs = [] := by
        cases cs with
        | nil => rfl
        | cons d ds => simp at h2
      have hrest0 : rest = [] := by
        subst hcs0; simpa using h2
      subst hcs0; subst hrest0
      rw [pyFormatGo.eq_4, if_neg hc.1, if_neg hc.2]
      simp [pyFormatGo, Except.map]
    | cons d ds =>
      rw [pyFormatGo.eq_5, if_neg hc.1, if_neg hc.2, ← h2, ih hcs]
      cases hr : pyFormatGo fields none rest <;> simp [Except.map, hr]

/-- Field-name characters accumulate until the closing brace. -/
theorem pyFormatGo_fieldAux (fields : List (String × String))
    (name : List Char) (hname : ∀ c ∈ name, c ≠ rbrace) :
    ∀ (acc rest : List Char),
      pyFormatGo fields (some acc) (name ++ rbrace :: rest) =
        pyFormatGo fields (some (acc ++ name)) (rbrace :: rest) := by
  induction name with
  | nil => intro acc rest; simp
  | cons c cs ih =>
    intro acc rest
    have hc := hname c (by simp)
    have hcs : ∀ x ∈ cs, x ≠ rbrace := fun x hx => hname x (by simp [hx])
    rw [List.cons_append, pyFormatGo.eq_3, if_neg hc, ih hcs]
    conv_rhs => rw [List.append_cons]

/-- Closing a field substitutes the looked-up value. -/
theorem pyFormatGo_close (fields : List (String × String)) (acc rest : List Char)
    (v : String) (hv : List.lookup (String.mk acc) fields = some v) :
    pyFormatGo fields (some acc) (rbrace :: rest) =
      (pyFormatGo fields none rest).map (fun r => v.data ++ r) := by
  rw [pyFormatGo.eq_3, if_pos rfl, hv]
  cases hr : pyFormatGo fields none rest <;> simp [Except.map, hr]

/-- A whole replacement field `\x7bname\x7d` whose name is bound in `fields`
formats to the bound value. -/
theorem pyFormatGo_field (fields : List (String × String)) (n : Char)
    (ns rest : List Char) (v : String) (hn : n ≠ lbrace)
    (hname : ∀ c ∈ n :: ns, c ≠ rbrace)
    (hv : List.lookup (String.mk (n :: ns)) fields = some v) :
    pyFormatGo fields none (lbrace :: ((n :: ns) ++ rbrace :: rest)) =
      (pyFormatGo fields none rest).map (fun r => v.data ++ r) := by
  rw [List.cons_append, pyFormatGo.eq_5, if_pos rfl, if_neg hn, ← List.cons_append]
  rw [pyFormatGo_fieldAux fields (n :: ns) hname [] rest, List.nil_append]
  exact pyFormatGo_close fields (n :: ns) rest v hv

/-- Formatting the literal tail of `log_line_post` substitutes the three
outcome fields. -/
theorem pyFormatGo_postTail (b : Bool) (code : Nat) (msg : String) :
    pyFormatGo (doFields b code msg) none ((", " ++ postTemplate).data) =
      .ok ((", success=").data ++ (pyBool b).data ++ (", status_code=").data
        ++ (toString code).data ++ (", message=").data ++ msg.data) := by
  have hd : (", " ++ postTemplate).data =
      (", success=").data ++ lbrace :: ((Char.ofNat 115 :: ("uccess").data)
        ++ rbrace :: ((", status_code=").data
        ++ lbrace :: ((Char.ofNat 115 :: ("tatus_code").data)
        ++ rbrace :: ((", message=").data
        ++ lbrace :: ((Char.ofNat 109 :: ("essage").data)
        ++ rbrace :: ([] : List Char)))))) := by decide
  rw [hd]
  rw [pyFormatGo_copy _ _ _ (by decide)]
  rw [pyFormatGo_field (doFields b code msg) (Char.ofNat 115) ("uccess").data _
    (pyBool b) (by decide) (by decide) (by rfl)]
  rw [pyFormatGo_copy _ _ _ (by decide)]
  rw [pyFormatGo_field (doFields b code msg) (Char.ofNat 115) ("tatus_code").data _
    (toString code) (by decide) (by decide) (by rfl)]
  rw [pyFormatGo_copy _ _ _ (by decide)]
  rw [pyFormatGo_field (doFields b code msg) (Char.ofNat 109) ("essage").data _
    msg (by decide) (by decide) (by rfl)]
  rw [pyFormatGo.eq_1]
  simp [Except.map]

/-- On a brace-free pre-flight line, line 125's `.format` succeeds and
appends exactly `success=.., status_code=.., message=..`. -/
theorem pyFormat_post (pre : String) (h : NoBraces pre) (b : Bool) (code : Nat)
    (msg : String) :
    pyFormat (doFields b code msg) (pre ++ ", " ++ postTemplate) =
      .ok (pre ++ ", success=" ++ pyBool b ++ ", status_code="
        ++ toString code ++ ", message=" ++ msg) := by
  unfold pyFormat
  have h1 : (pre ++ ", " ++ postTemplate).data =
      pre.data ++ (", " ++ postTemplate).data := by simp
  rw [h1, pyFormatGo_copy _ _ _ h, pyFormatGo_postTail]
  simp [Except.map]
  apply String.ext
  simp

/-- `_do` on a returned response, when the pre-flight line is brace-free:
returns the response, emits pre-flight, send, and one post-flight record. -/
theorem do_ok (a : RestAdapter) (m e : String)
    (p d : Option (List (String × String))) (r : Response)
    (h : NoBraces (logLinePre m (a.url ++ e) p)) :
    a._do m e p d (.ok r) =
      { result := .ok r
        trace := [.log 10 (logLinePre m (a.url ++ e) p),
                  .send m (a.url ++ e) p d,
                  .log (if is_success r.status_code then 10 else 40)
                    (logLinePre m (a.url ++ e) p ++ ", success="
                      ++ pyBool (is_success r.status_code) ++ ", status_code="
                      ++ toString r.status_code ++ ", message=" ++ r.reason)]
        state := a } := by
  simp only [RestAdapter._do]
  rw [pyFormat_post (logLinePre m (a.url ++ e) p) h (is_success r.status_code)
    r.status_code r.reason]
  by_cases hs : is_success r.status_code
  · simp [hs]
  · simp [hs]

/-- `_do` on a raised transport error: pre-flight record, send, one error
record carrying the error text, and the error re-raised. -/
theorem do_err (a : RestAdapter) (m e : String)
    (p d : Option (List (String × String))) (err : String) :
    a._do m e p d (.error err) =
      { result := .error (.requestException err)
        trace := [.log 10 (logLinePre m (a.url ++ e) p),
                  .send m (a.url ++ e) p d, .log 40 err]
        state := a } := rfl

/-- `_do` never changes the adapter state, on any path. -/
theorem do_state (a : RestAdapter) (m e : String)
    (p d : Option (List (String × String))) (t : Except String Response) :
    (a._do m e p d t).state = a := by
  simp only [RestAdapter._do]
  cases t with
  | error err => rfl
  | ok r => split <;> (try rfl) <;> split <;> (try rfl) <;> split <;> rfl

/-- The first event of every `_do` call is the debug pre-flight record. -/
theorem do_head (a : RestAdapter) (m e : String)
    (p d : Option (List (String × String))) (t : Except String Response) :
    (a._do m e p d t).trace.head? =
      some (.log 10 (logLinePre m (a.url ++ e) p)) := by
  simp only [RestAdapter._do]
  cases t with
  | error err => rfl
  | ok r => split <;> (try rfl) <;> split <;> (try rfl) <;> split <;> rfl

/-- `Char.toUpper` never produces a lowercase `c` (code point 99). -/
theorem char_toUpper_ne_lower_c (c : Char) : c.toUpper ≠ Char.ofNat 99 := by
  simp only [Char.toUpper]
  by_cases h : c.toNat ≥ 97 ∧ c.toNat ≤ 122
  · rw [if_pos h]
    obtain ⟨h1, h2⟩ := h
    intro heq
    have h3 : (Char.ofNat (c.toNat - 32)).toNat = 99 := by rw [heq]; decide
    have h4 : c.toNat - 32 ≥ 65 := by omega
    have h5 : c.toNat - 32 ≤ 90 := by omega
    generalize hn : c.toNat - 32 = n at h3 h4 h5
    interval_cases n <;> simp_all
  · rw [if_neg h]
    intro heq
    rw [heq] at h
    exact h (by decide)

/-- No string uppercases to the lowercase literal `"critical"`, so the
second alternative of the 50-level match arm is dead code. -/
theorem pyUpper_ne_critical (s : String) : pyUpper s ≠ "critical" := by
  intro h
  have hd : (pyUpper s).data = ("critical").data := by rw [h]
  have hd2 : s.data.map Char.toUpper = ("critical").data := hd
  cases hs : s.data with
  | nil => rw [hs] at hd2; exact absurd hd2 (by decide)
  | cons a as =>
    rw [hs] at hd2
    simp only [List.map_cons] at hd2
    have : a.toUpper = Char.ofNat 99 := by
      have := List.head_eq_of_cons_eq hd2
      simpa using this
    exact char_toUpper_ne_lower_c a this

set_option maxRecDepth 8192 in
/-- Not every brace in the pre-flight text makes line 125's `str.format`
raise: a replacement field naming a bound keyword, such as
`\x7bsuccess\x7d` in the endpoint, is substituted (also into the pre-flight
part of the template) and the call still returns the response with a full
three-event trace.  The brace-free hypothesis of the amended C2/C4/C5
statements is therefore a restriction, not a characterization of the
failing inputs. -/
theorem brace_bound_field_ok :
    (adapterEx._do "GET" "x\x7bsuccess\x7d" none none (.ok resp404)).result
        = .ok resp404
  ∧ (adapterEx._do "GET" "x\x7bsuccess\x7d" none none
        (.ok resp404)).trace.length = 3 := by decide

set_option maxRecDepth 8192 in
/-- Doubled braces in the pre-flight text are format-literal braces:
`str.format` succeeds and the response is returned, with the post-flight
record emitted. -/
theorem double_brace_ok :
    (adapterEx._do "GET" "a\x7b\x7bb" none none (.ok resp200)).result
        = .ok resp200
  ∧ (adapterEx._do "GET" "a\x7b\x7bb" none none
        (.ok resp200)).trace.length = 3 := by decide

/-- Claim C1: the classification computed at line 124 succeeds exactly on
status codes in the inclusive range 200..299.  `is_success` is a function
of the numeric status code alone — `_do` applies it to
`response.status_code` only, identically for every HTTP method. -/
theorem claim_C1 (c : Nat) : is_success c = true ↔ (200 ≤ c ∧ c ≤ 299) := by
  simp [is_success]
  omega

/-- Claim C2 (amended): when the transport returns a response and the
pre-flight text (method, URL, rendered params) contains no brace
character, `_do` returns that response unchanged, for success and failure
classifications alike, without raising. -/
theorem claim_C2 (a : RestAdapter) (m e : String)
    (p d : Option (List (String × String))) (r : Response)
    (h : NoBraces (logLinePre m (a.url ++ e) p)) :
    (a._do m e p d (.ok r)).result = .ok r := by
  rw [do_ok a m e p d r h]

/-- Claim C2 witness: a concrete failure-classified (404) call returning
the response unchanged. -/
theorem claim_C2_witness :
    (adapterEx._do "GET" "items" none none (.ok resp404)).result = .ok resp404 :=
  claim_C2 adapterEx "GET" "items" none none resp404 (by decide)

/-- Claim C2 counterexample: the endpoint carries the replacement field
`\x7bbad\x7d`, whose name is bound to no keyword of line 125's `str.format`,
so the format raises `KeyError` outside the try block and `_do` does not
return the response the transport produced — the claim as stated is false
at this input.  (Not every brace fails: see `brace_bound_field_ok` and
`double_brace_ok`.) -/
theorem claim_C2_cex :
    (adapterEx._do "GET" "items\x7bbad\x7d" none none (.ok resp404)).result
      ≠ .ok resp404 := by decide

/-- Claim C3: on a transport-level error, `_do` emits the pre-flight debug
record, invokes the transport once (no retry), emits exactly one
error-severity record whose text is the error text, emits no post-flight
record, and re-raises the same error. -/
theorem claim_C3 (a : RestAdapter) (m e : String)
    (p d : Option (List (String × String))) (err : String) :
    a._do m e p d (.error err) =
      { result := .error (.requestException err)
        trace := [.log 10 (logLinePre m (a.url ++ e) p),
                  .send m (a.url ++ e) p d, .log 40 err]
        state := a } :=
  do_err a m e p d err

/-- Claim C4 (amended): when the pre-flight text contains no brace
character, every `_do` call's event trace is exactly pre-flight record,
transport invocation, then one post-flight or error record, in that
order.  (The transport-error half holds without the proviso; the proviso
is needed for the returned-response half.) -/
theorem claim_C4 (a : RestAdapter) (m e : String)
    (p d : Option (List (String × String))) (t : Except String Response)
    (h : NoBraces (logLinePre m (a.url ++ e) p)) :
    ∃ lv lastMsg, (a._do m e p d t).trace =
      [.log 10 (logLinePre m (a.url ++ e) p), .send m (a.url ++ e) p d,
       .log lv lastMsg] := by
  cases t with
  | error err => exact ⟨40, err, by rw [do_err]⟩
  | ok r => exact ⟨_, _, by rw [do_ok a m e p d r h]⟩

/-- Claim C4 witness: a concrete successful call with the three-record
trace. -/
theorem claim_C4_witness : ∃ lv lastMsg,
    (adapterEx._do "GET" "items" none none (.ok resp200)).trace =
      [.log 10 (logLinePre "GET" (adapterEx.url ++ "items") none),
       .send "GET" (adapterEx.url ++ "items") none none, .log lv lastMsg] :=
  claim_C4 adapterEx "GET" "items" none none (.ok resp200) (by decide)

/-- Claim C4 counterexample: the endpoint carries the unbound replacement
field `\x7boops\x7d`, so the call receives a response yet emits no record
after the transport invocation (`str.format` raises before either
post-flight branch) — the claim as stated is false at this input. -/
theorem claim_C4_cex :
    (adapterEx._do "GET" "items\x7boops\x7d" none none (.ok resp200)).trace =
      [.log 10 (logLinePre "GET" (adapterEx.url ++ "items\x7boops\x7d") none),
       .send "GET" (adapterEx.url ++ "items\x7boops\x7d") none none] := by decide

/-- Claim C5 (amended): when the pre-flight text contains no brace
character, the post-flight record's text is the pre-flight line extended
with `success=<bool>, status_code=<int>, message=<reason>` taken from the
response, at debug severity (10) when classified successful and error
severity (40) otherwise. -/
theorem claim_C5 (a : RestAdapter) (m e : String)
    (p d : Option (List (String × String))) (r : Response)
    (h : NoBraces (logLinePre m (a.url ++ e) p)) :
    (a._do m e p d (.ok r)).trace =
      [.log 10 (logLinePre m (a.url ++ e) p),
       .send m (a.url ++ e) p d,
       .log (if is_success r.status_code then 10 else 40)
         (logLinePre m (a.url ++ e) p ++ ", success="
           ++ pyBool (is_success r.status_code) ++ ", status_code="
           ++ toString r.status_code ++ ", message=" ++ r.reason)] := by
  rw [do_ok a m e p d r h]

/-- Claim C5 witness: a concrete 404 call; its post-flight record carries
the extended line at error severity. -/
theorem claim_C5_witness :
    (adapterEx._do "GET" "w" none none (.ok resp404)).trace =
      [.log 10 (logLinePre "GET" (adapterEx.url ++ "w") none),
       .send "GET" (adapterEx.url ++ "w") none none,
       .log (if is_success resp404.status_code then 10 else 40)
         (logLinePre "GET" (adapterEx.url ++ "w") none ++ ", success="
           ++ pyBool (is_success resp404.status_code) ++ ", status_code="
           ++ toString resp404.status_code ++ ", message=" ++ resp404.reason)] :=
  claim_C5 adapterEx "GET" "w" none none resp404 (by decide)

/-- Claim C5 counterexample: the endpoint carries the unbound replacement
field `\x7bq\x7d`, so no post-flight record is emitted on the returned
response — the claim as stated is false at this input. -/
theorem claim_C5_cex :
    (adapterEx._do "GET" "x\x7bq\x7d" none none (.ok resp404)).trace =
      [.log 10 (logLinePre "GET" (adapterEx.url ++ "x\x7bq\x7d") none),
       .send "GET" (adapterEx.url ++ "x\x7bq\x7d") none none] := by decide

/-- Claim C6: every `_do` call's first emitted record is the debug-severity
pre-flight line; that line is `method=<m>, url=<full url>, params=<list>`
with each query pair rendered as `key: value`, and an omitted (`None`) or
empty parameter dict renders as the literal empty list `[]`, never as an
absent key. -/
theorem claim_C6 (a : RestAdapter) (m e : String)
    (p d : Option (List (String × String))) (t : Except String Response) :
    (a._do m e p d t).trace.head? = some (.log 10 (logLinePre m (a.url ++ e) p))
  ∧ logLinePre m (a.url ++ e) p =
      "method=" ++ m ++ ", url=" ++ (a.url ++ e) ++ ", params="
        ++ pyStrList (renderLogParams p)
  ∧ (∀ ps, ps ≠ [] →
      renderLogParams (some ps) = ps.map fun kv => kv.1 ++ ": " ++ kv.2)
  ∧ ((p = none ∨ p = some []) → pyStrList (renderLogParams p) = "[]") := by
  refine ⟨do_head a m e p d t, rfl, ?_, ?_⟩
  · intro ps hps
    cases ps with
    | nil => exact absurd rfl hps
    | cons q qs => rfl
  · rintro (h | h) <;> subst h <;> decide

/-- Claim C7: any severity label the `log` method's match does not
recognize falls to the wildcard arm: the call does not raise (the match is
total) and the message is emitted at the no-op numeric severity 0. -/
theorem claim_C7 (a : RestAdapter) (lvl msg : String)
    (h1 : pyUpper lvl ≠ "FATAL") (h2 : pyUpper lvl ≠ "critical")
    (h3 : pyUpper lvl ≠ "ERROR") (h4 : pyUpper lvl ≠ "WARNING")
    (h5 : pyUpper lvl ≠ "INFO") (h6 : pyUpper lvl ≠ "DEBUG") :
    a.log lvl msg = .log 0 msg := by
  unfold RestAdapter.log
  split <;> simp_all

/-- Claim C7 witness: the unrecognized label `TRACE` is emitted at 0. -/
theorem claim_C7_witness : adapterEx.log "TRACE" "m" = .log 0 "m" :=
  claim_C7 adapterEx "TRACE" "m" (by decide) (by decide) (by decide) (by decide)
    (by decide) (by decide)

/-- Claim C8: `_do`, `get`, `post`, `put` and `delete` leave every adapter
field (base url, session reference, api key, ssl flag, logger reference)
unchanged whether the call returns a response or propagates an error; no
call can influence a later one through the adapter's state. -/
theorem claim_C8 (a : RestAdapter) (m e : String)
    (p d : Option (List (String × String))) (t : Except String Response) :
    (a._do m e p d t).state = a ∧ (a.get e p t).state = a
  ∧ (a.post e p d t).state = a ∧ (a.put e p d t).state = a
  ∧ (a.delete e p t).state = a :=
  ⟨do_state a m e p d t, do_state a "GET" e p none t, do_state a "POST" e p d t,
   do_state a "PUT" e p d t, do_state a "DELETE" e p none t⟩

/-- Claim C9: a label uppercasing to `CRITICAL` is emitted at severity 0,
not 50, because the 50-level arm names only `FATAL` and the unreachable
lowercase literal `critical`; severity 50 is emitted exactly for labels
uppercasing to `FATAL`. -/
theorem claim_C9 :
    (∀ (a : RestAdapter) (lvl msg : String), pyUpper lvl = "CRITICAL" →
        a.log lvl msg = .log 0 msg)
  ∧ (∀ (a : RestAdapter) (lvl msg : String),
        a.log lvl msg = .log 50 msg ↔ pyUpper lvl = "FATAL") := by
  constructor
  · intro a lvl msg h
    unfold RestAdapter.log
    split <;> simp_all
  · intro a lvl msg
    constructor
    · intro h
      unfold RestAdapter.log at h
      split at h
      · assumption
      · rename_i heq
        exact absurd heq (pyUpper_ne_critical lvl)
      all_goals simp at h
    · intro h
      unfold RestAdapter.log
      rw [h]
      rfl

/-- Claim C10: the constructor raises `ValueError` exactly when the
supplied log level, uppercased, is not one of the five keys of the
`levels` dict; for those five labels in any letter case, level validation
passes. -/
theorem claim_C10 (hostname api_key ver : String) (ssl : Bool) (lvl : String) :
    (∃ err, RestAdapter.init hostname api_key ver ssl lvl = .error err) ↔
      pyUpper lvl ∉ (["DEBUG", "INFO", "WARNING", "ERROR", "CRITICAL"] :
        List String) := by
  simp only [RestAdapter.init, logger_config_check, List.contains, levels,
    List.map, List.elem_eq_mem]
  by_cases h : pyUpper lvl ∈ (["DEBUG", "INFO", "WARNING", "ERROR", "CRITICAL"] :
      List String)
  · simp [h]
  · simp [h]
